import Mathlib

/-!
Verification development for the `my-drive-bot` repository
(`src/storage.py`, `src/drive_utils.py`, `src/bot.py`).

The Python modules are shallowly embedded as executable Lean definitions:

* `storage.py` — the sqlite `users` table becomes a `List UserRow`; each SQL
  statement becomes a pure function on that list (an `UPDATE ... WHERE
  telegram_id = ?` maps the matching rows, an upsert either maps or appends).
* `drive_utils.py` — the remote Google Drive service is abstracted as a
  `script : Nat → CallResult` giving the outcome of each permission-creation
  attempt; Python exception values become the inductive `Exc` mirroring the
  `isinstance` classification used by the code.
* `bot.py` — the `collect_email` aiogram handler becomes a pure transition
  function from (FSM state implicitly `waiting_for_email`, store, attempt
  script) to a `CollectResult` recording the final FSM state, the final store,
  the number of store writes and remote attempts, whether `record_share` ran,
  and the replies sent.

Timestamps (`datetime.datetime.utcnow().isoformat()`) are modelled by an
explicit `now : String` parameter; `time.sleep` durations are recorded in a
list of rationals (the Python floats `1.5`, `3.0`, `5.0` are exactly
representable, so ℚ loses nothing).
-/

/-! ### Python string primitives used by the sources -/

/-- Characters matched by Python's `\s` (ASCII range) and stripped by
`str.strip()`: space, tab, newline, carriage return, vertical tab, form feed. -/
def pyIsSpace (c : Char) : Bool :=
  c = ' ' || c = '\t' || c = '\n' || c = '\r' || c = '\x0b' || c = '\x0c'

/-- Python `str.strip()` on the character list of a string. -/
def pyStrip (l : List Char) : List Char :=
  ((l.dropWhile pyIsSpace).reverse.dropWhile pyIsSpace).reverse

/-- ASCII lowering of one character, as Python `str.lower()` does on the
ASCII subset relevant to the error strings compared by `drive_utils.py`. -/
def lowerChar (c : Char) : Char :=
  if 'A' ≤ c && c ≤ 'Z' then Char.ofNat (c.toNat + 32) else c

/-- Python `str.lower()` on the character list of a string. -/
def pyLower (l : List Char) : List Char := l.map lowerChar

/-- Python's substring containment `p in s` on character lists. -/
def containsSub (p : List Char) : List Char → Bool
  | [] => p.isEmpty
  | c :: rest => p.isPrefixOf (c :: rest) || containsSub p rest

/-! ### `storage.py`: the `users` table and its operations -/

/-- One row of the sqlite `users` table created by `init_db` (`storage.py`).
All `TEXT` columns are nullable, hence `Option String`; `telegram_id` is the
`INTEGER PRIMARY KEY`. -/
structure UserRow where
  telegram_id : Int
  first_name : Option String
  last_name : Option String
  username : Option String
  phone : Option String
  phone_shared_at : Option String
  team : Option String
  email : Option String
  shared_at : Option String
  created_at : Option String
  updated_at : Option String
deriving DecidableEq, Repr

/-- The `users` table: a list of rows (the primary key makes `telegram_id`
unique in any store reachable through the operations below, but no operation
needs that assumption). -/
abbrev Store : Type := List UserRow

/-- Semantics of `UPDATE users SET ... WHERE telegram_id = ?`: apply the row
transformer to every row whose key matches. -/
def updateWhere (s : Store) (id : Int) (f : UserRow → UserRow) : Store :=
  List.map (fun r => if r.telegram_id = id then f r else r) s

/-- Embeds `_ensure_user_sync` (`storage.py` line 49): an
`INSERT ... ON CONFLICT(telegram_id) DO UPDATE` upsert.  On conflict it
overwrites `first_name`, `last_name`, `username`, `phone`, `phone_shared_at`
and `updated_at` only; otherwise it inserts a fresh row whose `team`, `email`
and `shared_at` are NULL (`created_at` defaults to the current timestamp). -/
def ensure_user (s : Store) (id : Int) (fn ln un ph : String) (now : String) : Store :=
  if s.any (fun r => r.telegram_id = id) then
    updateWhere s id (fun r =>
      { r with
        first_name := some fn
        last_name := some ln
        username := some un
        phone := some ph
        phone_shared_at := some now
        updated_at := some now })
  else
    s ++ [{ telegram_id := id
            first_name := some fn
            last_name := some ln
            username := some un
            phone := some ph
            phone_shared_at := some now
            team := none
            email := none
            shared_at := none
            created_at := some now
            updated_at := some now }]

/-- Embeds `update_team` / `_update_field_sync` (`storage.py` lines 73 and 85):
`UPDATE users SET team = ?, updated_at = ? WHERE telegram_id = ?`.
Note the SQL touches no other column and silently affects zero rows when the
key is absent. -/
def update_team (s : Store) (id : Int) (team now : String) : Store :=
  updateWhere s id (fun r => { r with team := some team, updated_at := some now })

/-- Embeds `update_email` / `_update_field_sync` (`storage.py` lines 73 and 89):
`UPDATE users SET email = ?, updated_at = ? WHERE telegram_id = ?`.
Note the SQL touches no other column (in particular not `shared_at`) and
silently affects zero rows when the key is absent. -/
def update_email (s : Store) (id : Int) (email now : String) : Store :=
  updateWhere s id (fun r => { r with email := some email, updated_at := some now })

/-- Embeds `_record_share_sync` (`storage.py` line 93):
`UPDATE users SET shared_at = ?, updated_at = ? WHERE telegram_id = ?`. -/
def record_share (s : Store) (id : Int) (now : String) : Store :=
  updateWhere s id (fun r => { r with shared_at := some now, updated_at := some now })

/-- Embeds `_fetch_user_sync` (`storage.py` line 109):
`SELECT * FROM users WHERE telegram_id = ?` with `fetchone()`. -/
def fetch_user (s : Store) (id : Int) : Option UserRow :=
  List.find? (fun r => r.telegram_id = id) s

/-- Number of rows with the given team (`COUNT(*)` within one `GROUP BY team`
group of `_all_teams_with_counts_sync`). -/
def teamTotal (s : Store) (t : String) : Nat :=
  (List.filter (fun r => r.team = some t) s).length

/-- Number of rows with the given team and a non-null `shared_at`
(`SUM(CASE WHEN shared_at IS NOT NULL THEN 1 ELSE 0 END)` within one group). -/
def teamGranted (s : Store) (t : String) : Nat :=
  (List.filter (fun r => r.team = some t ∧ r.shared_at.isSome) s).length

/-- One result row of `_all_teams_with_counts_sync` (`storage.py` line 135). -/
structure TeamCount where
  team : String
  total : Nat
  added : Nat
deriving DecidableEq, Repr

/-- Embeds `_all_teams_with_counts_sync` (`storage.py` line 135):
`SELECT team, COUNT(*), SUM(CASE WHEN shared_at IS NOT NULL THEN 1 ELSE 0 END)
FROM users WHERE team IS NOT NULL GROUP BY team`.  The groups are the distinct
non-null team values; row order within the result is irrelevant to the
callers (and unspecified by the spec), so `dedup` fixes an arbitrary one. -/
def all_teams_with_counts (s : Store) : List TeamCount :=
  ((s.filterMap (fun r => r.team)).dedup).map
    (fun t => { team := t, total := teamTotal s t, added := teamGranted s t })

/-! ### `drive_utils.py`: error classification and the share loop -/

/-- Exception values that can reach the handlers of `_share_folder_sync`,
classified the way the Python code classifies them with `isinstance`:

* `httpError status message` — `googleapiclient.errors.HttpError`; `status` is
  what `_get_http_status` extracts (`none` when the response carries no usable
  integer status).  An `HttpError` is not an `OSError`.
* `sslError`, `socketTimeout`, `connectionReset` — the three classes named in
  `_is_network_error`'s `network_errors` tuple.
* `osError message` — any other `OSError`; `message` is `str(exc)`.
* `otherError message` — anything else (e.g. the `ValueError` raised by
  `_folder_for_team` is represented separately, before the loop runs). -/
inductive Exc where
  | httpError (status : Option Int) (message : String)
  | sslError (message : String)
  | socketTimeout (message : String)
  | connectionReset (message : String)
  | osError (message : String)
  | otherError (message : String)
deriving DecidableEq, Repr

/-- Embeds `_is_network_error` (`drive_utils.py` line 101):
`isinstance(exc, (ssl.SSLError, socket.timeout, ConnectionResetError)) or
(isinstance(exc, OSError) and "timed out" in str(exc).lower())`. -/
def is_network_error : Exc → Bool
  | .sslError _ => true
  | .socketTimeout _ => true
  | .connectionReset _ => true
  | .osError m => containsSub "timed out".toList (pyLower m.toList)
  | _ => false

/-- User-facing string for HTTP 400/404 (`drive_utils.py` line 112). -/
def msgBadEmail : String := "الإيميل ده مش موجود أو مش شغال على Google، جرب إيميل تاني."

/-- User-facing string for HTTP 403 (`drive_utils.py` line 114). -/
def msgNoAccess : String := "الإيميل ده ما عندهوش صلاحية للوصول أو المجلد مقفل، جرب إيميل تاني."

/-- User-facing string for network-class errors (`drive_utils.py` line 116). -/
def msgNetwork : String := "النت مش ثابت دلوقتي، جرب بعد شوية."

/-- Generic user-facing string for everything else (`drive_utils.py` line 117). -/
def msgGeneric : String := "حصل خطأ غير متوقع أثناء مشاركة المجلد، تواصل مع الأدمن لو المشكلة مستمرة."

/-- Embeds `_map_user_message` (`drive_utils.py` line 108): an `HttpError`
with status 400/404 or 403 gets its dedicated message; otherwise the code
falls through to the network check and the generic fallback. -/
def map_user_message (e : Exc) : String :=
  let fallback := if is_network_error e then msgNetwork else msgGeneric
  match e with
  | .httpError status _ =>
      if status = some 400 ∨ status = some 404 then msgBadEmail
      else if status = some 403 then msgNoAccess
      else fallback
  | _ => fallback

/-- Constant `MAX_SHARE_ATTEMPTS = 3` (`drive_utils.py` line 17). -/
def MAX_SHARE_ATTEMPTS : Nat := 3

/-- The `status == 409` test performed inside the `except HttpError` handler
of `_share_folder_sync` (`drive_utils.py` line 141). -/
def is_conflict : Exc → Bool
  | .httpError status _ => status = some 409
  | _ => false

/-- Outcome of one `service.permissions().create(...).execute()` call:
either it returns, or it raises an exception. -/
inductive CallResult where
  | ok
  | err (e : Exc)
deriving DecidableEq, Repr

/-- Result of `_share_folder_sync`: the returned folder id, or the
`ShareFailure(user_message, original)` it raises. -/
inductive ShareResult where
  | granted (folderId : String)
  | failed (userMessage : String) (original : Exc)
deriving DecidableEq, Repr

/-- Observable trace of one `_share_folder_sync` run: its result, how many
attempts the loop performed, and the `time.sleep` durations (in seconds)
executed between attempts. -/
structure ShareTrace where
  result : ShareResult
  attempts : Nat
  sleeps : List ℚ
deriving DecidableEq, Repr

/-- Python's two-argument `min` on the rationals standing in for the floats
of `time.sleep(min(attempt * 1.5, 5))`. -/
def ratMin (a b : ℚ) : ℚ := if a ≤ b then a else b

/-- The iteration space `range(1, MAX_SHARE_ATTEMPTS + 1)` of the retry loop. -/
def share_attempt_numbers : List Nat := List.range' 1 MAX_SHARE_ATTEMPTS

/-- Embeds the `for attempt in range(1, MAX_SHARE_ATTEMPTS + 1)` loop of
`_share_folder_sync` (`drive_utils.py` lines 129–169).  `script a` is the
outcome of the remote call on attempt `a`.  On success the folder id is
returned; on an exception, a 409 `HttpError` returns the folder id
("permission already exists"), any other exception raises `ShareFailure`
when `attempt == MAX_SHARE_ATTEMPTS` and otherwise falls through to
`time.sleep(min(attempt * 1.5, 5))` and the next iteration.  The `[]` case is
the `return folder_id` after the loop, unreachable with the fixed attempt
list. -/
def shareLoop (folderId : String) (script : Nat → CallResult) :
    List Nat → List ℚ → ShareTrace
  | [], sleeps => ⟨.granted folderId, MAX_SHARE_ATTEMPTS, sleeps⟩
  | a :: rest, sleeps =>
    match script a with
    | .ok => ⟨.granted folderId, a, sleeps⟩
    | .err e =>
      if is_conflict e then ⟨.granted folderId, a, sleeps⟩
      else if a = MAX_SHARE_ATTEMPTS then ⟨.failed (map_user_message e) e, a, sleeps⟩
      else shareLoop folderId script rest (sleeps ++ [ratMin ((a : ℚ) * 1.5) 5])

/-- Embeds `_share_folder_sync` / `share_folder_with_user` including the
folder resolution step: `_folder_for_team` consults `TEAM_FOLDER_MAP` and
then `_DEFAULT_FOLDER_ID`, both abstracted as `folderFor : String → Option
String`; `none` is the `ValueError` it raises ("no folder configured").
The `email` argument only feeds the permission body, which the attempt
script abstracts. -/
def share_folder_sync (folderFor : String → Option String) (team : String)
    (_email : String) (script : Nat → CallResult) : Option ShareTrace :=
  match folderFor team with
  | none => none
  | some fid => some (shareLoop fid script share_attempt_numbers [])

/-! ### `bot.py`: email validation and the `collect_email` handler -/

/-- A maximal `[^@\s]+` chunk: non-empty and free of `'@'` and whitespace. -/
def chunkOk (l : List Char) : Bool :=
  !l.isEmpty && l.all (fun c => !(c = '@') && !pyIsSpace c)

/-- A `'.'` with at least one character on each side. -/
def hasInteriorDot (l : List Char) : Bool :=
  ((l.drop 1).dropLast).contains '.'

/-- Embeds `EMAIL_REGEX.fullmatch` for
`EMAIL_REGEX = re.compile(r"[^@\s]+@[^@\s]+\.[^@\s]+")` (`bot.py` line 73).
Since neither side of the `@` may contain `'@'`, a full match forces exactly
one `'@'`; the domain side must additionally contain a `'.'` that has at
least one admissible character before and after it. -/
def email_regex_fullmatch (s : String) : Bool :=
  match s.toList.splitOn '@' with
  | [localPart, domain] => chunkOk localPart && chunkOk domain && hasInteriorDot domain
  | _ => false

/-- FSM state of one user's aiogram session (`RegistrationStates` in
`bot.py`); `idle` is the cleared state (`state.clear()` / no state set). -/
inductive FsmState where
  | idle
  | waiting_for_phone
  | waiting_for_team
  | waiting_for_email
deriving DecidableEq, Repr

/-- Reply sent for a syntactically invalid email (`bot.py` line 207). -/
def replyInvalidEmail : String :=
  "⚠️ البريد الإلكتروني غير صالح، تأكد إنك كتبت الشكل name@example.com."

/-- Reply sent when the profile row is missing (`bot.py` line 212). -/
def replyProfileMissing : String :=
  "❌ لم يتم تحميل ملف التعريف الخاص بك، حاول إرسال /start من جديد."

/-- Reply sent when the profile has no team (`bot.py` line 219). -/
def replyTeamMissing : String := "⚠️ لم يتم تحديد الفرقة بعد، اخترها مجددًا."

/-- Progress reply sent before the share attempt (`bot.py` line 222). -/
def replySharing : String := "⏳ جارٍ إضافة بريدك إلى مجلد الفرقة... لحظات."

/-- Success reply (`bot.py` line 227), parameterised by the team name. -/
def replyAdded (team : String) : String :=
  "✅ تمت إضافتك إلى مجلد " ++ team ++ "! تقدر تبعت بريد تاني لو حبيت تعيد الصلاحية."

/-- Reply of the generic `except Exception` handler (`bot.py` line 238). -/
def replyUnexpected : String :=
  "❌ حصل خطأ غير متوقع أثناء مشاركة المجلد، جرب مرة تانية بعد شوية أو بلغ الأدمن."

/-- The `ACCESS_INSTRUCTIONS` message (`bot.py` line 75), abbreviated head
kept only as an opaque constant: its content never matters to the core. -/
def accessInstructionsMsg : String := "للوصول للملفات بعد ما أضيفك: ..."

/-- The `FILE_PANEL_PROMPT` message (`bot.py` line 96). -/
def filePanelPromptMsg : String := "تقدر تفتح المجلد أو تبص على الملفات من هنا:"

/-- Everything observable about one execution of the `collect_email` handler:
the FSM state it leaves behind, the resulting store, how many store-mutating
calls it issued (`update_email`, `record_share`), how many remote
permission-creation attempts ran, whether `record_share` was called, and the
replies sent in order. -/
structure CollectResult where
  state : FsmState
  store : Store
  storeWrites : Nat
  remoteAttempts : Nat
  recordShareCalled : Bool
  replies : List String
deriving DecidableEq, Repr

/-- Embeds the `collect_email` handler (`bot.py` lines 203–241), which runs
with the FSM in `waiting_for_email` (its `StateFilter`).  Steps, in source
order: strip the message text; on empty or regex-rejected input reply and
return with the state held; otherwise `update_email`, re-fetch the profile
(clearing state if the row is missing), test the team with Python's
truthiness — `if not team:` is taken both when the column is NULL and when
it is the empty string — then resolve the folder and run the share loop; on
success `record_share` and send the success replies; on `ShareFailure` send
its `user_message`; on any other exception (here: the configuration
`ValueError`) send the generic reply; `finally: state.clear()`.
`cfg` abstracts `_folder_for_team` as in `share_folder_sync`. -/
def collect_email (cfg : String → Option String) (userId : Int) (text : String)
    (s : Store) (script : Nat → CallResult) (now : String) : CollectResult :=
  let email : String := ⟨pyStrip text.toList⟩
  if email = "" ∨ email_regex_fullmatch email = false then
    { state := .waiting_for_email, store := s, storeWrites := 0,
      remoteAttempts := 0, recordShareCalled := false,
      replies := [replyInvalidEmail] }
  else
    let s1 := update_email s userId email now
    match fetch_user s1 userId with
    | none =>
      { state := .idle, store := s1, storeWrites := 1, remoteAttempts := 0,
        recordShareCalled := false, replies := [replyProfileMissing] }
    | some profile =>
      match profile.team with
      | none =>
        { state := .idle, store := s1, storeWrites := 1, remoteAttempts := 0,
          recordShareCalled := false, replies := [replyTeamMissing] }
      | some team =>
        if team = "" then
          { state := .idle, store := s1, storeWrites := 1, remoteAttempts := 0,
            recordShareCalled := false, replies := [replyTeamMissing] }
        else
          match cfg team with
          | none =>
            { state := .idle, store := s1, storeWrites := 1, remoteAttempts := 0,
              recordShareCalled := false,
              replies := [replySharing, replyUnexpected] }
          | some fid =>
            let tr := shareLoop fid script share_attempt_numbers []
            match tr.result with
            | .granted _ =>
              { state := .idle, store := record_share s1 userId now,
                storeWrites := 2, remoteAttempts := tr.attempts,
                recordShareCalled := true,
                replies := [replySharing, replyAdded team,
                            accessInstructionsMsg, filePanelPromptMsg] }
            | .failed userMessage _ =>
              { state := .idle, store := s1, storeWrites := 1,
                remoteAttempts := tr.attempts, recordShareCalled := false,
                replies := [replySharing, userMessage] }

/-! ### Helper lemmas about the store -/

/-- Looking up the updated key after an `UPDATE ... WHERE telegram_id = ?`
yields the transformed row, provided the transformer keeps the key. -/
theorem fetch_user_updateWhere (s : Store) (id : Int) (f : UserRow → UserRow)
    (hf : ∀ r, (f r).telegram_id = r.telegram_id) :
    fetch_user (updateWhere s id f) id = (fetch_user s id).map f := by
  induction s with
  | nil => rfl
  | cons r t ih =>
    by_cases h : r.telegram_id = id
    · simp [updateWhere, fetch_user, List.find?_cons, h, hf r]
    · simp only [updateWhere, List.map_cons, fetch_user, List.find?_cons] at ih ⊢
      simp only [if_neg h, decide_eq_false h]
      exact ih

/-- An `UPDATE ... WHERE telegram_id = ?` matching no row leaves the table
unchanged. -/
theorem updateWhere_of_absent (s : Store) (id : Int) (f : UserRow → UserRow)
    (h : ∀ r ∈ s, r.telegram_id ≠ id) : updateWhere s id f = s := by
  unfold updateWhere
  conv_rhs => rw [← List.map_id s]
  exact List.map_congr_left (fun r hr => by simp [h r hr])

/-! ### Concrete store fixtures used by counterexamples and witnesses -/

/-- A profile row whose grant already completed: `email = e1`,
`shared_at = t1` (both non-null). -/
def rowGranted : UserRow :=
  { telegram_id := 1, first_name := some "Ada", last_name := some "L",
    username := some "ada", phone := some "+201000000001",
    phone_shared_at := some "T0", team := some "teamX",
    email := some "e1@example.com", shared_at := some "T1",
    created_at := some "T0", updated_at := some "T0" }

/-- The row `rowGranted` after `update_email` writes `e2` at time `T2`. -/
def rowGrantedAfterEmail : UserRow :=
  { rowGranted with email := some "e2@example.com", updated_at := some "T2" }

/-! ### C1 — `setEmail` and `grantedAt` -/

/-- C1 counterexample: the claim says `setEmail` clears `grantedAt` to null,
but `update_email` runs `UPDATE users SET email = ?, updated_at = ?` and
leaves `shared_at` untouched: starting from a profile with
`email = e1, shared_at = T1`, after `update_email(1, e2)` a `get` observes
the new email together with the OLD `shared_at = T1`, not null. -/
theorem update_email_does_not_clear_shared_at :
    fetch_user (update_email [rowGranted] 1 "e2@example.com" "T2") 1 =
      some rowGrantedAfterEmail ∧
    rowGrantedAfterEmail.email = some "e2@example.com" ∧
    rowGrantedAfterEmail.shared_at = some "T1" ∧
    rowGrantedAfterEmail.shared_at ≠ none := by
  refine ⟨by decide, by decide, by decide, by decide⟩

/-- C1 amended: for a user with an existing profile record, `update_email`
overwrites `email` (and the `updated_at` bookkeeping field) and leaves every
other column — in particular `shared_at` (`grantedAt`) — unchanged, so a
`get` immediately afterwards observes the new email together with the
previous `grantedAt` value. -/
theorem update_email_sets_email_preserves_shared_at (s : Store) (id : Int)
    (email now : String) (r : UserRow) (h : fetch_user s id = some r) :
    fetch_user (update_email s id email now) id =
      some { r with email := some email, updated_at := some now } ∧
    ({ r with email := some email, updated_at := some now } : UserRow).shared_at
      = r.shared_at ∧
    ({ r with email := some email, updated_at := some now } : UserRow).team
      = r.team := by
  refine ⟨?_, rfl, rfl⟩
  unfold update_email
  rw [fetch_user_updateWhere s id
        (fun r => { r with email := some email, updated_at := some now })
        (fun _ => rfl), h]
  rfl

/-- C1 amended, witnessed on the concrete one-row store. -/
theorem update_email_sets_email_preserves_shared_at_witness :
    fetch_user (update_email [rowGranted] 1 "e2@example.com" "T2") 1 =
      some { rowGranted with email := some "e2@example.com", updated_at := some "T2" } ∧
    ({ rowGranted with email := some "e2@example.com", updated_at := some "T2" } : UserRow).shared_at
      = rowGranted.shared_at ∧
    ({ rowGranted with email := some "e2@example.com", updated_at := some "T2" } : UserRow).team
      = rowGranted.team :=
  update_email_sets_email_preserves_shared_at [rowGranted] 1 "e2@example.com" "T2"
    rowGranted (by decide)

/-! ### C5 — `setTeam` on a missing record -/

/-- C5 counterexample: the claim says `update_team` on a user id with no
prior record fails with `NotFound`, but the SQL `UPDATE` simply matches zero
rows: the call completes successfully and the store is unchanged (shown on
the empty store and on a store holding only an unrelated id). -/
theorem update_team_missing_user_silent_noop :
    update_team ([] : Store) 7 "teamX" "T" = ([] : Store) ∧
    update_team [rowGranted] 7 "teamX" "T" = [rowGranted] ∧
    fetch_user (update_team [rowGranted] 7 "teamX" "T") 7 = none := by
  refine ⟨rfl, by decide, by decide⟩

/-- C5 amended: for a user id with no prior record, `update_team` succeeds
silently as a no-op — it raises nothing and leaves the store unchanged. -/
theorem update_team_absent_id_is_noop (s : Store) (id : Int) (team now : String)
    (h : ∀ r ∈ s, r.telegram_id ≠ id) :
    update_team s id team now = s := by
  unfold update_team
  exact updateWhere_of_absent s id _ h

/-- C5 amended, witnessed on a one-row store with a different id. -/
theorem update_team_absent_id_is_noop_witness :
    update_team [rowGranted] 7 "teamX" "T" = [rowGranted] :=
  update_team_absent_id_is_noop [rowGranted] 7 "teamX" "T" (by decide)

/-! ### C8 — team summary -/

/-- C8: every team value that at least one profile row carries appears in
`all_teams_with_counts` with `total` the number of rows having that team and
`added` the number of those rows whose `shared_at` is non-null. -/
theorem team_summary_counts (s : Store) (t : String)
    (h : ∃ r ∈ s, r.team = some t) :
    TeamCount.mk t (teamTotal s t) (teamGranted s t) ∈ all_teams_with_counts s := by
  unfold all_teams_with_counts
  refine List.mem_map_of_mem _ ?_
  rw [List.mem_dedup, List.mem_filterMap]
  obtain ⟨r, hr, hteam⟩ := h
  exact ⟨r, hr, hteam⟩

/-- Store of the claim's instance: `{A: team=X, granted}`,
`{B: team=X, not granted}`, `{C: team=Y, granted}`. -/
def summaryStore : Store :=
  [{ telegram_id := 10, first_name := some "A", last_name := none,
     username := none, phone := some "1", phone_shared_at := some "T",
     team := some "X", email := some "a@x.com", shared_at := some "TA",
     created_at := some "T", updated_at := some "T" },
   { telegram_id := 11, first_name := some "B", last_name := none,
     username := none, phone := some "2", phone_shared_at := some "T",
     team := some "X", email := some "b@x.com", shared_at := none,
     created_at := some "T", updated_at := some "T" },
   { telegram_id := 12, first_name := some "C", last_name := none,
     username := none, phone := some "3", phone_shared_at := some "T",
     team := some "Y", email := some "c@y.com", shared_at := some "TC",
     created_at := some "T", updated_at := some "T" }]

/-- C8 witnessed on the claim's instance: `X: total=2, granted=1` and
`Y: total=1, granted=1`. -/
theorem team_summary_counts_witness :
    TeamCount.mk "X" (teamTotal summaryStore "X") (teamGranted summaryStore "X")
      ∈ all_teams_with_counts summaryStore ∧
    teamTotal summaryStore "X" = 2 ∧ teamGranted summaryStore "X" = 1 ∧
    TeamCount.mk "Y" (teamTotal summaryStore "Y") (teamGranted summaryStore "Y")
      ∈ all_teams_with_counts summaryStore ∧
    teamTotal summaryStore "Y" = 1 ∧ teamGranted summaryStore "Y" = 1 :=
  ⟨team_summary_counts summaryStore "X" (by decide), by decide, by decide,
   team_summary_counts summaryStore "Y" (by decide), by decide, by decide⟩

/-! ### C10 — `ensure_user` frame condition -/

/-- C10: on a user id that already has a profile row, `ensure_user` (the
`INSERT ... ON CONFLICT DO UPDATE` upsert) overwrites exactly the identity
columns (`first_name`, `last_name`, `username`, `phone`, `phone_shared_at`)
and `updated_at`, and leaves `team`, `email`, `shared_at` and `created_at`
with their previous values. -/
theorem ensure_user_preserves_team_email_grant (s : Store) (id : Int)
    (fn ln un ph now : String) (r : UserRow) (h : fetch_user s id = some r) :
    fetch_user (ensure_user s id fn ln un ph now) id =
      some { r with first_name := some fn, last_name := some ln,
                    username := some un, phone := some ph,
                    phone_shared_at := some now, updated_at := some now } ∧
    ({ r with first_name := some fn, last_name := some ln,
              username := some un, phone := some ph,
              phone_shared_at := some now, updated_at := some now } : UserRow).team
      = r.team ∧
    ({ r with first_name := some fn, last_name := some ln,
              username := some un, phone := some ph,
              phone_shared_at := some now, updated_at := some now } : UserRow).email
      = r.email ∧
    ({ r with first_name := some fn, last_name := some ln,
              username := some un, phone := some ph,
              phone_shared_at := some now, updated_at := some now } : UserRow).shared_at
      = r.shared_at ∧
    ({ r with first_name := some fn, last_name := some ln,
              username := some un, phone := some ph,
              phone_shared_at := some now, updated_at := some now } : UserRow).created_at
      = r.created_at := by
  refine ⟨?_, rfl, rfl, rfl, rfl⟩
  have hmem : r ∈ s := List.mem_of_find?_eq_some h
  have hpred : r.telegram_id = id := by
    have := List.find?_some h
    simpa using this
  unfold ensure_user
  rw [if_pos (List.any_eq_true.mpr ⟨r, hmem, by simpa using hpred⟩)]
  rw [fetch_user_updateWhere s id
        (fun r => { r with first_name := some fn, last_name := some ln,
                           username := some un, phone := some ph,
                           phone_shared_at := some now, updated_at := some now })
        (fun _ => rfl), h]
  rfl

/-- C10 witnessed on the concrete one-row store. -/
theorem ensure_user_preserves_team_email_grant_witness :
    fetch_user (ensure_user [rowGranted] 1 "Ada2" "L2" "ada2" "+2" "T3") 1 =
      some { rowGranted with first_name := some "Ada2", last_name := some "L2",
                             username := some "ada2", phone := some "+2",
                             phone_shared_at := some "T3", updated_at := some "T3" } ∧
    ({ rowGranted with first_name := some "Ada2", last_name := some "L2",
                       username := some "ada2", phone := some "+2",
                       phone_shared_at := some "T3", updated_at := some "T3" } : UserRow).team
      = rowGranted.team ∧
    ({ rowGranted with first_name := some "Ada2", last_name := some "L2",
                       username := some "ada2", phone := some "+2",
                       phone_shared_at := some "T3", updated_at := some "T3" } : UserRow).email
      = rowGranted.email ∧
    ({ rowGranted with first_name := some "Ada2", last_name := some "L2",
                       username := some "ada2", phone := some "+2",
                       phone_shared_at := some "T3", updated_at := some "T3" } : UserRow).shared_at
      = rowGranted.shared_at ∧
    ({ rowGranted with first_name := some "Ada2", last_name := some "L2",
                       username := some "ada2", phone := some "+2",
                       phone_shared_at := some "T3", updated_at := some "T3" } : UserRow).created_at
      = rowGranted.created_at :=
  ensure_user_preserves_team_email_grant [rowGranted] 1 "Ada2" "L2" "ada2" "+2" "T3"
    rowGranted (by decide)

/-! ### Helper lemmas about the share loop -/

/-- Unfolding of the attempt list `range(1, MAX_SHARE_ATTEMPTS + 1)`. -/
theorem share_attempt_numbers_eq : share_attempt_numbers = [1, 2, 3] := rfl

/-- When every attempt raises a non-409 exception, the loop performs all
three attempts, sleeps `min(1*1.5, 5) = 1.5` and `min(2*1.5, 5) = 3` seconds
between them, and raises `ShareFailure` built from the last exception. -/
theorem shareLoop_all_err (fid : String) (script : Nat → CallResult)
    (e1 e2 e3 : Exc)
    (h1 : script 1 = .err e1) (h2 : script 2 = .err e2) (h3 : script 3 = .err e3)
    (n1 : is_conflict e1 = false) (n2 : is_conflict e2 = false)
    (n3 : is_conflict e3 = false) :
    shareLoop fid script share_attempt_numbers [] =
      ⟨.failed (map_user_message e3) e3, 3, [3/2, 3]⟩ := by
  rw [share_attempt_numbers_eq]
  simp only [shareLoop, h1, h2, h3, n1, n2, n3, MAX_SHARE_ATTEMPTS,
    Bool.false_eq_true, if_false, List.nil_append, List.singleton_append,
    reduceIte]
  norm_num [ratMin, ShareTrace.mk.injEq]

/-- When the first attempt raises a 409 `HttpError`, the loop returns the
folder id at attempt 1 with no sleep. -/
theorem shareLoop_conflict_first (fid : String) (script : Nat → CallResult)
    (e : Exc) (h1 : script 1 = .err e) (hc : is_conflict e = true) :
    shareLoop fid script share_attempt_numbers [] = ⟨.granted fid, 1, []⟩ := by
  rw [share_attempt_numbers_eq]
  simp only [shareLoop, h1, hc, if_true]

/-! ### C9 — the user-message mapping -/

/-- The HTTP status carried by an exception, when it is an `HttpError`
(the information `_get_http_status` extracts). -/
def http_status : Exc → Option Int
  | .httpError st _ => st
  | _ => none

/-- C9: `_map_user_message` is a fixed total mapping into four constant
user-facing strings, never echoing the raw cause: HTTP 400/404 → the
bad-address message, HTTP 403 → the lacks-access message, network-class
errors (`_is_network_error`) → the connectivity message, and everything
else → the generic message. -/
theorem user_message_mapping (e : Exc) :
    (map_user_message e = msgBadEmail ∨ map_user_message e = msgNoAccess ∨
     map_user_message e = msgNetwork ∨ map_user_message e = msgGeneric) ∧
    (http_status e = some 400 ∨ http_status e = some 404 →
      map_user_message e = msgBadEmail) ∧
    (http_status e = some 403 → map_user_message e = msgNoAccess) ∧
    (is_network_error e = true → map_user_message e = msgNetwork) ∧
    (http_status e ≠ some 400 → http_status e ≠ some 404 →
      http_status e ≠ some 403 → is_network_error e = false →
      map_user_message e = msgGeneric) := by
  cases e with
  | httpError st m =>
    refine ⟨?_, ?_, ?_, ?_, ?_⟩
    · by_cases h4 : st = some 400 ∨ st = some 404
      · exact Or.inl (by simp [map_user_message, h4])
      · by_cases h3 : st = some 403
        · exact Or.inr (Or.inl (by simp [map_user_message, h4, h3]))
        · exact Or.inr (Or.inr (Or.inr
            (by simp [map_user_message, h4, h3, is_network_error])))
    · intro h
      simp only [http_status] at h
      simp [map_user_message, h]
    · intro h
      simp only [http_status] at h
      have h4 : ¬(st = some 400 ∨ st = some 404) := by
        rintro (rfl | rfl) <;> simp at h
      simp [map_user_message, h4, h]
    · intro h
      simp [is_network_error] at h
    · intro h400 h404 h403 _
      simp only [http_status] at h400 h404 h403
      simp [map_user_message, h400, h404, h403, is_network_error]
  | sslError m =>
    exact ⟨Or.inr (Or.inr (Or.inl (by simp [map_user_message, is_network_error]))),
      fun h => by simp [http_status] at h,
      fun h => by simp [http_status] at h,
      fun _ => by simp [map_user_message, is_network_error],
      fun _ _ _ h => by simp [is_network_error] at h⟩
  | socketTimeout m =>
    exact ⟨Or.inr (Or.inr (Or.inl (by simp [map_user_message, is_network_error]))),
      fun h => by simp [http_status] at h,
      fun h => by simp [http_status] at h,
      fun _ => by simp [map_user_message, is_network_error],
      fun _ _ _ h => by simp [is_network_error] at h⟩
  | connectionReset m =>
    exact ⟨Or.inr (Or.inr (Or.inl (by simp [map_user_message, is_network_error]))),
      fun h => by simp [http_status] at h,
      fun h => by simp [http_status] at h,
      fun _ => by simp [map_user_message, is_network_error],
      fun _ _ _ h => by simp [is_network_error] at h⟩
  | osError m =>
    refine ⟨?_, fun h => by simp [http_status] at h,
      fun h => by simp [http_status] at h, ?_, ?_⟩
    · by_cases hn : is_network_error (.osError m) = true
      · exact Or.inr (Or.inr (Or.inl (by simp [map_user_message, hn])))
      · exact Or.inr (Or.inr (Or.inr
          (by simp [map_user_message, Bool.eq_false_iff.mpr hn])))
    · intro hn
      simp [map_user_message, hn]
    · intro _ _ _ hn
      simp [map_user_message, hn]
  | otherError m =>
    exact ⟨Or.inr (Or.inr (Or.inr (by simp [map_user_message, is_network_error]))),
      fun h => by simp [http_status] at h,
      fun h => by simp [http_status] at h,
      fun h => by simp [is_network_error] at h,
      fun _ _ _ _ => by simp [map_user_message, is_network_error]⟩

/-- C9 witnessed at one concrete cause of each category, including an
OS-level timeout recognised by the lower-cased substring test. -/
theorem user_message_mapping_witness :
    map_user_message (.httpError (some 404) "notFound") = msgBadEmail ∧
    map_user_message (.httpError (some 403) "insufficientPermissions") = msgNoAccess ∧
    map_user_message (.osError "Read TIMED OUT while fetching") = msgNetwork ∧
    map_user_message (.httpError (some 500) "backendError") = msgGeneric :=
  ⟨(user_message_mapping _).2.1 (Or.inr rfl),
   (user_message_mapping _).2.2.1 rfl,
   (user_message_mapping _).2.2.2.1 (by decide),
   (user_message_mapping _).2.2.2.2 (by decide) (by decide) (by decide) (by decide)⟩

/-! ### C2 — no non-retryable short-circuit -/

/-- A 403 rejection as raised by the remote service. -/
def err403 : Exc := .httpError (some 403) "insufficientFilePermissions"

/-- Attempt script in which every remote call fails with `err403`. -/
def script403 : Nat → CallResult := fun _ => .err err403

/-- C2 counterexample: the claim says a 403 on attempt 1 stops the loop
after exactly 1 attempt with no backoff wait, but `_share_folder_sync`
special-cases only status 409 — with a 403 on every attempt the loop
performs all 3 attempts and sleeps twice before raising `ShareFailure`. -/
theorem share_403_first_attempt_not_short_circuit :
    (shareLoop "folderA" script403 share_attempt_numbers []).attempts = 3 ∧
    (shareLoop "folderA" script403 share_attempt_numbers []).attempts ≠ 1 ∧
    (shareLoop "folderA" script403 share_attempt_numbers []).sleeps.length = 2 ∧
    (shareLoop "folderA" script403 share_attempt_numbers []).result =
      .failed msgNoAccess err403 := by
  refine ⟨by decide, by decide, by decide, by decide⟩

/-- C2 amended: an HTTP 400/404/403 failure is NOT treated as non-retryable:
the loop retries it like any other non-409 exception, and when it persists
on every attempt the operation surfaces `ShareFailure` (with the
status-specific user message) only after all 3 attempts and both backoff
waits (1.5s, 3s). -/
theorem share_nonretryable_status_retries_to_failure (fid : String)
    (script : Nat → CallResult) (st : Int) (m : String)
    (hst : st = 400 ∨ st = 404 ∨ st = 403)
    (hall : ∀ a ∈ share_attempt_numbers, script a = .err (.httpError (some st) m)) :
    shareLoop fid script share_attempt_numbers [] =
      ⟨.failed (map_user_message (.httpError (some st) m)) (.httpError (some st) m),
       3, [3/2, 3]⟩ := by
  have nc : is_conflict (Exc.httpError (some st) m) = false := by
    rcases hst with rfl | rfl | rfl <;> rfl
  exact shareLoop_all_err fid script _ _ _
    (hall 1 (by decide)) (hall 2 (by decide)) (hall 3 (by decide)) nc nc nc

/-- C2 amended, witnessed on the constant-403 script. -/
theorem share_nonretryable_status_retries_to_failure_witness :
    shareLoop "folderA" script403 share_attempt_numbers [] =
      ⟨.failed (map_user_message err403) err403, 3, [3/2, 3]⟩ ∧
    map_user_message err403 = msgNoAccess :=
  ⟨share_nonretryable_status_retries_to_failure "folderA" script403 403
      "insufficientFilePermissions" (Or.inr (Or.inr rfl)) (fun _ _ => rfl),
   by decide⟩

/-! ### C3 — retry exhaustion -/

/-- Modelled from the spec (§4.2, §7): the spec's classification of
"retryable" remote conditions — rate limiting (429), 5xx, and the
network-class transport failures recognised by `_is_network_error`.  The
code itself never consults such a predicate (it retries every non-409
exception); this definition only states the claim's hypothesis. -/
def retryable_condition (e : Exc) : Bool :=
  match e with
  | .httpError (some st) _ => st = 429 ∨ (500 ≤ st ∧ st < 600)
  | .httpError none _ => false
  | x => is_network_error x

/-- A spec-retryable exception is never the 409 conflict. -/
theorem retryable_not_conflict (e : Exc) (h : retryable_condition e = true) :
    is_conflict e = false := by
  cases e with
  | httpError st m =>
    cases st with
    | none => simp [retryable_condition] at h
    | some v =>
      simp only [retryable_condition, decide_eq_true_eq] at h
      simp only [is_conflict, decide_eq_false_iff_not]
      intro h409
      have hv : v = 409 := by injection h409
      rcases h with h | ⟨h5, h6⟩ <;> omega
  | sslError m => rfl
  | socketTimeout m => rfl
  | connectionReset m => rfl
  | osError m => rfl
  | otherError m => rfl

/-- C3: if every one of the 3 attempts fails with a retryable condition, the
loop performs exactly 3 attempts, sleeps the capped linear backoff sequence
`min(1*1.5, 5) = 1.5` and `min(2*1.5, 5) = 3` seconds, and surfaces a
`ShareFailure` built from the last exception; moreover under this attempt
script the `collect_email` caller never calls `record_share`, whatever the
store, configuration and input text. -/
theorem share_retryable_exhaustion (fid : String) (script : Nat → CallResult)
    (e1 e2 e3 : Exc)
    (h1 : script 1 = .err e1) (h2 : script 2 = .err e2) (h3 : script 3 = .err e3)
    (r1 : retryable_condition e1 = true) (r2 : retryable_condition e2 = true)
    (r3 : retryable_condition e3 = true) :
    shareLoop fid script share_attempt_numbers [] =
      ⟨.failed (map_user_message e3) e3, 3, [3/2, 3]⟩ ∧
    ∀ cfg userId text s now,
      (collect_email cfg userId text s script now).recordShareCalled = false := by
  have hS : ∀ f, shareLoop f script share_attempt_numbers [] =
      ⟨.failed (map_user_message e3) e3, 3, [3/2, 3]⟩ :=
    fun f => shareLoop_all_err f script e1 e2 e3 h1 h2 h3
      (retryable_not_conflict e1 r1) (retryable_not_conflict e2 r2)
      (retryable_not_conflict e3 r3)
  refine ⟨hS fid, ?_⟩
  intro cfg userId text s now
  simp only [collect_email]
  split
  · rfl
  · split
    · rfl
    · split
      · rfl
      · split
        · rfl
        · split
          · rfl
          · rw [hS]

/-- A transport timeout as classified by `_is_network_error`. -/
def errTimeout : Exc := .socketTimeout "The read operation timed out"

/-- Attempt script in which every remote call times out. -/
def scriptTimeout : Nat → CallResult := fun _ => .err errTimeout

/-- Folder configuration mapping the team of `rowGranted` to a folder id. -/
def folderMap : String → Option String :=
  fun t => if t = "teamX" then some "folderX" else none

/-- C3 witnessed on the constant-timeout script, including the caller. -/
theorem share_retryable_exhaustion_witness :
    shareLoop "folderB" scriptTimeout share_attempt_numbers [] =
      ⟨.failed (map_user_message errTimeout) errTimeout, 3, [3/2, 3]⟩ ∧
    (collect_email folderMap 1 " e1@example.com " [rowGranted] scriptTimeout "T9").recordShareCalled
      = false := by
  have h := share_retryable_exhaustion "folderB" scriptTimeout errTimeout errTimeout
    errTimeout rfl rfl rfl (by decide) (by decide) (by decide)
  exact ⟨h.1, h.2 folderMap 1 " e1@example.com " [rowGranted] "T9"⟩

/-! ### C4 — conflict treated as success -/

/-- C4: when the first remote attempt reports the permission already exists
(HTTP 409), `_share_folder_sync` returns the folder id at attempt 1 with no
backoff wait, and in `collect_email` (given a valid email, an existing
profile whose team is truthy — non-null and non-empty, as `if not team:`
tests — and a configured folder) the caller then calls `record_share`, so a
fetch of the final store shows `shared_at = now`. -/
theorem share_conflict_is_success (fid : String) (script : Nat → CallResult)
    (m : String) (h1 : script 1 = .err (.httpError (some 409) m)) :
    shareLoop fid script share_attempt_numbers [] = ⟨.granted fid, 1, []⟩ ∧
    ∀ cfg userId text s now p tm f2,
      (⟨pyStrip text.toList⟩ : String) ≠ "" →
      email_regex_fullmatch ⟨pyStrip text.toList⟩ = true →
      fetch_user (update_email s userId ⟨pyStrip text.toList⟩ now) userId = some p →
      p.team = some tm →
      tm ≠ "" →
      cfg tm = some f2 →
      (collect_email cfg userId text s script now).recordShareCalled = true ∧
      (collect_email cfg userId text s script now).remoteAttempts = 1 ∧
      fetch_user ((collect_email cfg userId text s script now).store) userId =
        some { p with shared_at := some now, updated_at := some now } := by
  have hS : ∀ f, shareLoop f script share_attempt_numbers [] = ⟨.granted f, 1, []⟩ :=
    fun f => shareLoop_conflict_first f script _ h1 rfl
  refine ⟨hS fid, ?_⟩
  intro cfg userId text s now p tm f2 hne hv hfetch hteam htm hcfg
  have hcond : ¬((⟨pyStrip text.toList⟩ : String) = "" ∨
      email_regex_fullmatch ⟨pyStrip text.toList⟩ = false) := by
    rintro (h | h)
    · exact hne h
    · rw [hv] at h
      cases h
  refine ⟨?_, ?_, ?_⟩ <;>
    simp only [collect_email, if_neg hcond, hfetch, hteam, if_neg htm, hcfg, hS]
  unfold record_share
  rw [fetch_user_updateWhere _ _
        (fun r => { r with shared_at := some now, updated_at := some now })
        (fun _ => rfl), hfetch]
  simp [hteam]

/-- A 409 conflict as raised by the remote service. -/
def err409 : Exc := .httpError (some 409) "duplicate permission"

/-- Attempt script in which the first remote call reports the conflict. -/
def script409 : Nat → CallResult := fun _ => .err err409

/-- C4 witnessed end to end on the concrete one-row store. -/
theorem share_conflict_is_success_witness :
    shareLoop "folderX" script409 share_attempt_numbers [] =
      ⟨.granted "folderX", 1, []⟩ ∧
    (collect_email folderMap 1 " e2@example.com " [rowGranted] script409 "T9").recordShareCalled
      = true ∧
    (collect_email folderMap 1 " e2@example.com " [rowGranted] script409 "T9").remoteAttempts
      = 1 ∧
    fetch_user ((collect_email folderMap 1 " e2@example.com " [rowGranted] script409 "T9").store) 1 =
      some { rowGranted with email := some "e2@example.com", shared_at := some "T9",
                             updated_at := some "T9" } := by
  have h := share_conflict_is_success "folderX" script409 "duplicate permission" rfl
  have h2 := h.2 folderMap 1 " e2@example.com " [rowGranted] "T9"
    { rowGranted with email := some "e2@example.com", updated_at := some "T9" }
    "teamX" "folderX" (by decide) (by decide) (by decide) (by decide) (by decide)
    (by decide)
  exact ⟨h.1, h2.1, h2.2.1, h2.2.2⟩

/-! ### C6 — invalid email holds the state -/

/-- C6: while the FSM is in `waiting_for_email`, any text whose stripped
form is empty or rejected by `EMAIL_REGEX.fullmatch` leaves the machine in
`waiting_for_email`, performs zero store writes (the store is returned
unchanged), makes zero remote attempts, never calls `record_share`, and only
re-prompts. -/
theorem invalid_email_holds_state (cfg : String → Option String) (userId : Int)
    (text : String) (s : Store) (script : Nat → CallResult) (now : String)
    (h : (⟨pyStrip text.toList⟩ : String) = "" ∨
         email_regex_fullmatch ⟨pyStrip text.toList⟩ = false) :
    collect_email cfg userId text s script now =
      { state := .waiting_for_email, store := s, storeWrites := 0,
        remoteAttempts := 0, recordShareCalled := false,
        replies := [replyInvalidEmail] } := by
  simp only [collect_email]
  rw [if_pos h]

/-- C6 witnessed on the claim's input `"not-an-email"`. -/
theorem invalid_email_holds_state_witness :
    collect_email folderMap 1 "not-an-email" [rowGranted] scriptTimeout "T9" =
      { state := .waiting_for_email, store := [rowGranted], storeWrites := 0,
        remoteAttempts := 0, recordShareCalled := false,
        replies := [replyInvalidEmail] } ∧
    email_regex_fullmatch "not-an-email" = false :=
  ⟨invalid_email_holds_state folderMap 1 "not-an-email" [rowGranted] scriptTimeout "T9"
      (Or.inr (by decide)),
   by decide⟩

/-! ### C7 — valid email always clears the state -/

/-- C7: while the FSM is in `waiting_for_email`, any text whose stripped
form is non-empty and accepted by `EMAIL_REGEX.fullmatch` ends the handler
with the state cleared to `idle` — in every outcome: missing profile,
missing team, configuration error, grant success, and `ShareFailure` (the
`finally: state.clear()`), for every store, configuration and attempt
script. -/
theorem valid_email_clears_state (cfg : String → Option String) (userId : Int)
    (text : String) (s : Store) (script : Nat → CallResult) (now : String)
    (hne : (⟨pyStrip text.toList⟩ : String) ≠ "")
    (hv : email_regex_fullmatch ⟨pyStrip text.toList⟩ = true) :
    (collect_email cfg userId text s script now).state = .idle := by
  have hcond : ¬((⟨pyStrip text.toList⟩ : String) = "" ∨
      email_regex_fullmatch ⟨pyStrip text.toList⟩ = false) := by
    rintro (h | h)
    · exact hne h
    · rw [hv] at h
      cases h
  simp only [collect_email]
  rw [if_neg hcond]
  split
  · rfl
  · split
    · rfl
    · split
      · rfl
      · split
        · rfl
        · split <;> rfl

/-- C7 witnessed across three outcome categories on concrete inputs: grant
success (conflict script), `ShareFailure` (timeout script), and the missing-
profile internal error (empty store). -/
theorem valid_email_clears_state_witness :
    (collect_email folderMap 1 " e2@example.com " [rowGranted] script409 "T9").state = .idle ∧
    (collect_email folderMap 1 " e2@example.com " [rowGranted] scriptTimeout "T9").state = .idle ∧
    (collect_email folderMap 1 "a@b.co" [] scriptTimeout "T9").state = .idle :=
  ⟨valid_email_clears_state folderMap 1 " e2@example.com " [rowGranted] script409 "T9"
      (by decide) (by decide),
   valid_email_clears_state folderMap 1 " e2@example.com " [rowGranted] scriptTimeout "T9"
      (by decide) (by decide),
   valid_email_clears_state folderMap 1 "a@b.co" [] scriptTimeout "T9"
      (by decide) (by decide)⟩
